import Mathlib

set_option maxRecDepth 8000

/-!
Shallow embedding of tools/analyze_gfortran_ast.py.

The program is a single-pass line scanner.  Each input file is read fully,
split on the newline character, and walked once while two optional string
variables (curr_procedure, curr_symbol) roll forward.  Five anchored regular
expressions drive the scan; diagnostics are printed to standard output.

Lines produced by splitting on the newline character never contain a newline,
so the dot of the Python patterns (which stops at a newline) and the
end-of-string anchor behave on this domain exactly like plain list matching,
which is how they are modelled below.  The message construction concatenates
curr_symbol, which is None until the first symtree line of the file; Python
raises a TypeError there, modelled by an explicit error flag.
-/

/-- Whitespace class of the Python pattern fragment backslash-s on text
patterns: the six ASCII whitespace characters together with the Unicode
whitespace characters recognised by the re module. -/
def isPySpace (c : Char) : Bool :=
  c = ' ' || c = '\t' || c = '\n' || c = '\x0b' || c = '\x0c' || c = '\r' ||
  c = '\x1c' || c = '\x1d' || c = '\x1e' || c = '\x1f' || c = '\x85' || c = '\xa0' ||
  c = '\u1680' || c = '\u2000' || c = '\u2001' || c = '\u2002' || c = '\u2003' ||
  c = '\u2004' || c = '\u2005' || c = '\u2006' || c = '\u2007' || c = '\u2008' ||
  c = '\u2009' || c = '\u200a' || c = '\u2028' || c = '\u2029' || c = '\u202f' ||
  c = '\u205f' || c = '\u3000'

/-- Drop a maximal run of whitespace characters from the front of a list. -/
def dropWsRun : List Char → List Char
  | [] => []
  | c :: cs => if isPySpace c then dropWsRun cs else c :: cs

/-- Strip the mandatory leading whitespace demanded by the anchored fragment
backslash-s-plus: fails unless the first character is whitespace, then drops
the maximal whitespace run.  Maximal munch is equivalent to the backtracking
search here because in all five patterns the continuation starts with a
non-whitespace character. -/
def stripWs : List Char → Option (List Char)
  | [] => none
  | c :: cs => if isPySpace c then some (dropWsRun cs) else none

/-- Strip an exact literal from the front of a list. -/
def stripLit : List Char → List Char → Option (List Char)
  | [], cs => some cs
  | _ :: _, [] => none
  | p :: ps, c :: cs => if c = p then stripLit ps cs else none

def procLit : List Char := "procedure name = ".toList

def symtreeLit : List Char := "symtree".toList

def symbolLit : List Char := " symbol: \x27".toList

def attrLit : List Char := "attributes: ".toList

def openLit : List Char := "OPEN".toList

def closeLit : List Char := "CLOSE".toList

def saveLit : List Char := "IMPLICIT-SAVE".toList

def typeLit : List Char := "IMPLICIT-TYPE".toList

def paramLit : List Char := "PARAMETER".toList

/-- Model of re.match for the pattern anchored whitespace, literal
procedure name = , capture of the rest of the line. -/
def re_procedure_match (line : List Char) : Option String :=
  match stripWs line with
  | none => none
  | some r =>
    match stripLit procLit r with
    | none => none
    | some cap => some (String.mk cap)

/-- One candidate position for the tail of the symtree pattern: the literal
space symbol colon space quote, then a nonempty run of non-quote characters
captured greedily, then the closing quote; the trailing dot-star of the
pattern accepts any remainder. -/
def symAt (cs : List Char) : Option String :=
  match stripLit symbolLit cs with
  | none => none
  | some rest =>
    match rest.takeWhile (fun ch => !(ch = '\x27')), rest.dropWhile (fun ch => !(ch = '\x27')) with
    | [], _ => none
    | _ :: _, [] => none
    | run, _ :: _ => some (String.mk run)

/-- Rightmost successful candidate, matching the greedy dot-star that stands
before the symbol literal in the symtree pattern. -/
def symSearch : List Char → Option String
  | [] => none
  | c :: cs =>
    match symSearch cs with
    | some s => some s
    | none => symAt (c :: cs)

/-- Model of re.match for the symtree pattern: anchored whitespace, literal
symtree, greedy gap, symbol literal, captured symbol name. -/
def re_symbol_match (line : List Char) : Option String :=
  match stripWs line with
  | none => none
  | some r =>
    match stripLit symtreeLit r with
    | none => none
    | some rest => symSearch rest

/-- Model of re.match for the attributes pattern; the capture is unused by the
program, so only the boolean outcome is kept. -/
def re_attr_matches (line : List Char) : Bool :=
  match stripWs line with
  | none => false
  | some r => (stripLit attrLit r).isSome

/-- Model of re.match for the unanchored-tail pattern whitespace then OPEN. -/
def re_open_matches (line : List Char) : Bool :=
  match stripWs line with
  | none => false
  | some r => (stripLit openLit r).isSome

/-- Model of re.match for the pattern whitespace then CLOSE. -/
def re_close_matches (line : List Char) : Bool :=
  match stripWs line with
  | none => false
  | some r => (stripLit closeLit r).isSome

/-- Python substring membership test, pat in s. -/
def containsSub (pat : List Char) : List Char → Bool
  | [] => pat.isEmpty
  | c :: cs => pat.isPrefixOf (c :: cs) || containsSub pat cs

/-- Position of the first dot in a reversed name, used below to model
rsplit. -/
def afterFirstDot : List Char → Option (List Char)
  | [] => none
  | c :: cs => if c = '.' then some cs else afterFirstDot cs

/-- Python fn.rsplit with separator dot and maxsplit one, first component:
everything before the last dot, or the whole name when there is no dot. -/
def rsplitBase (fn : String) : String :=
  match afterFirstDot fn.toList.reverse with
  | some rest => String.mk rest.reverse
  | none => fn

def open_close_exceptions : List String := ["cp_files", "machine_gfortran", "machine"]

/-- Rolling state of the scan, the two optional string variables of
process_log_file. -/
structure ScanState where
  curr_procedure : Option String
  curr_symbol : Option String
deriving DecidableEq

/-- Python truthiness of the optional string variables: None and the empty
string are falsy, every other string is truthy. -/
def pyTruthy : Option String → Bool
  | none => false
  | some s => !(s == "")

def implicitSaveStr : String := "IMPLICIT-SAVE"

def implicitTypeStr : String := "IMPLICIT-TYPE"

def openStr : String := "OPEN"

def closeStr : String := "CLOSE"

/-- Common front part of the two attribute diagnostics. -/
def attrPre (fn sym proc : String) : String :=
  fn ++ ": Symbol \"" ++ sym ++ "\" in procedure \"" ++ proc ++ "\" is "

/-- Attribute diagnostic text built by the two attribute branches. -/
def attrMsg (fn sym proc attr : String) : String :=
  attrPre fn sym proc ++ attr

/-- Diagnostic text of the OPEN and CLOSE branches; the procedure name is
preceded by a double quote and followed by a lone apostrophe, exactly as in
the source concatenation. -/
def openCloseMsg (fn verb proc : String) : String :=
  fn ++ ": direct call to " ++ verb ++ " in procedure \"" ++ proc ++ "\x27"

/-- The IMPLICIT-SAVE check and print of the loop body.  The error value
models the Python TypeError raised when curr_symbol is still None inside the
message concatenation; nothing is printed in that case. -/
def saveEmit (fn : String) (st : ScanState) (line : List Char) : Except Unit (List String) :=
  if re_attr_matches line && pyTruthy st.curr_procedure &&
      containsSub saveLit line && !containsSub paramLit line then
    match st.curr_symbol with
    | none => Except.error ()
    | some sym => Except.ok [attrMsg fn sym (st.curr_procedure.getD "") implicitSaveStr]
  else Except.ok []

/-- The IMPLICIT-TYPE check and print of the loop body, with the same failure
mode as the IMPLICIT-SAVE one. -/
def typeEmit (fn : String) (st : ScanState) (line : List Char) : Except Unit (List String) :=
  if re_attr_matches line && pyTruthy st.curr_procedure && containsSub typeLit line then
    match st.curr_symbol with
    | none => Except.error ()
    | some sym => Except.ok [attrMsg fn sym (st.curr_procedure.getD "") implicitTypeStr]
  else Except.ok []

/-- The OPEN check and print of the loop body; never fails. -/
def openEmit (fn : String) (st : ScanState) (line : List Char) : List String :=
  if re_open_matches line && pyTruthy st.curr_procedure &&
      !(open_close_exceptions.contains (rsplitBase fn)) then
    [openCloseMsg fn openStr (st.curr_procedure.getD "")]
  else []

/-- The CLOSE check and print of the loop body; never fails. -/
def closeEmit (fn : String) (st : ScanState) (line : List Char) : List String :=
  if re_close_matches line && pyTruthy st.curr_procedure &&
      !(open_close_exceptions.contains (rsplitBase fn)) then
    [openCloseMsg fn closeStr (st.curr_procedure.getD "")]
  else []

/-- One iteration of the scanning loop of process_log_file: the five checks in
source order, the first two updating the state and skipping the rest of the
body.  The boolean marks a fatal TypeError; the messages already printed on
that line before the failure are kept. -/
def processLine (fn : String) (st : ScanState) (line : List Char) :
    ScanState × List String × Bool :=
  match re_procedure_match line with
  | some p => ({ st with curr_procedure := some p }, [], false)
  | none =>
    match re_symbol_match line with
    | some s => ({ st with curr_symbol := some s }, [], false)
    | none =>
      match saveEmit fn st line with
      | Except.error _ => (st, [], true)
      | Except.ok m1 =>
        match typeEmit fn st line with
        | Except.error _ => (st, m1, true)
        | Except.ok m2 =>
          (st, m1 ++ m2 ++ openEmit fn st line ++ closeEmit fn st line, false)

/-- The scanning loop over the lines of one file: final state, printed
messages in order, and the fatal-failure flag; a failure stops the loop. -/
def runLines (fn : String) : ScanState → List (List Char) → ScanState × List String × Bool
  | st, [] => (st, [], false)
  | st, l :: ls =>
    let r := processLine fn st l
    if r.2.2 then r
    else
      let rest := runLines fn r.1 ls
      (rest.1, r.2.1 ++ rest.2.1, rest.2.2)

/-- Helper for splitting on the newline character, accumulator reversed. -/
def splitLinesAux : List Char → List Char → List (List Char)
  | acc, [] => [acc.reverse]
  | acc, c :: cs =>
    if c = '\n' then acc.reverse :: splitLinesAux [] cs
    else splitLinesAux (c :: acc) cs

/-- Python str.split on the newline character. -/
def splitLines (s : String) : List (List Char) := splitLinesAux [] s.toList

/-- Scan of one log file; content is the text returned by reading the file.
The result is the list of printed diagnostics in order together with a flag
telling whether the scan died with the TypeError. -/
def process_log_file (fn : String) (content : String) : List String × Bool :=
  let r := runLines fn { curr_procedure := none, curr_symbol := none } (splitLines content)
  (r.2.1, r.2.2)

/-- The four usage lines printed by main when no file argument is given. -/
def usageLines : List String :=
  ["Usage: gfanalyse_gfortran_ast.py <ast-file-1> ... <ast-file-N>",
   "       For generating the abstract syntax tree (ast) run gfortran",
   "       with \"-fdump-fortran-original\" and redirect output to file.",
   "       This can be achieved by putting \"FC_SAVELOG = TRUE\" in the cp2k arch-file."]

/-- Sequential processing of the argument files; an uncaught TypeError stops
the whole run.  Each file is given as a name and its content; every listed
file is assumed readable, unreadable files abort the run outside this
model. -/
def runFiles : List (String × String) → List String × Bool
  | [] => ([], false)
  | f :: rest =>
    let r := process_log_file f.1 f.2
    if r.2 then r
    else (r.1 ++ (runFiles rest).1, (runFiles rest).2)

/-- Model of main: the lines written to standard output and the process exit
code.  The empty list is the call without file arguments; an uncaught
exception makes the interpreter exit with code one. -/
def mainModel (files : List (String × String)) : List String × Nat :=
  if files.isEmpty then (usageLines, 1)
  else
    let r := runFiles files
    (r.1, if r.2 then 1 else 0)

theorem list_append_cancel {as bs cs : List Char} (h : as ++ bs = as ++ cs) : bs = cs := by
  induction as with
  | nil => simpa using h
  | cons a tl ih =>
    simp only [List.cons_append, List.cons.injEq] at h
    exact ih h.2

theorem string_data_append (a b : String) : (a ++ b).data = a.data ++ b.data := rfl

/-- The two attribute diagnostics built from the same file, symbol and
procedure are distinct strings. -/
theorem attrMsg_save_ne_type (fn sym proc : String) :
    attrMsg fn sym proc implicitSaveStr ≠ attrMsg fn sym proc implicitTypeStr := by
  intro h
  have h2 : (attrPre fn sym proc).data ++ implicitSaveStr.data =
      (attrPre fn sym proc).data ++ implicitTypeStr.data := by
    have := congrArg String.data h
    rwa [attrMsg, attrMsg, string_data_append, string_data_append] at this
  have h3 := list_append_cancel h2
  exact absurd h3 (by decide)

theorem stripLit_cons_some {p : Char} {ps r t : List Char}
    (h : stripLit (p :: ps) r = some t) : ∃ rs, r = p :: rs := by
  cases r with
  | nil => simp [stripLit] at h
  | cons c cs =>
    by_cases hc : c = p
    · exact ⟨cs, by rw [hc]⟩
    · simp [stripLit, hc] at h

theorem stripLit_ne {c p : Char} (ps rs : List Char) (hc : c ≠ p) :
    stripLit (p :: ps) (c :: rs) = none := by
  simp [stripLit, hc]

theorem re_procedure_match_eq_none {line rs : List Char} {c : Char}
    (h : stripWs line = some (c :: rs)) (hc : c ≠ 'p') :
    re_procedure_match line = none := by
  have hlit : stripLit procLit (c :: rs) = none := by
    have he : procLit = 'p' :: "rocedure name = ".toList := by decide
    rw [he]; exact stripLit_ne _ _ hc
  simp [re_procedure_match, h, hlit]

theorem re_symbol_match_eq_none {line rs : List Char} {c : Char}
    (h : stripWs line = some (c :: rs)) (hc : c ≠ 's') :
    re_symbol_match line = none := by
  have hlit : stripLit symtreeLit (c :: rs) = none := by
    have he : symtreeLit = 's' :: "ymtree".toList := by decide
    rw [he]; exact stripLit_ne _ _ hc
  simp [re_symbol_match, h, hlit]

theorem re_attr_matches_eq_false {line rs : List Char} {c : Char}
    (h : stripWs line = some (c :: rs)) (hc : c ≠ 'a') :
    re_attr_matches line = false := by
  have hlit : stripLit attrLit (c :: rs) = none := by
    have he : attrLit = 'a' :: "ttributes: ".toList := by decide
    rw [he]; exact stripLit_ne _ _ hc
  simp [re_attr_matches, h, hlit]

theorem re_open_matches_eq_false {line rs : List Char} {c : Char}
    (h : stripWs line = some (c :: rs)) (hc : c ≠ 'O') :
    re_open_matches line = false := by
  have hlit : stripLit openLit (c :: rs) = none := by
    have he : openLit = 'O' :: "PEN".toList := by decide
    rw [he]; exact stripLit_ne _ _ hc
  simp [re_open_matches, h, hlit]

theorem re_close_matches_eq_false {line rs : List Char} {c : Char}
    (h : stripWs line = some (c :: rs)) (hc : c ≠ 'C') :
    re_close_matches line = false := by
  have hlit : stripLit closeLit (c :: rs) = none := by
    have he : closeLit = 'C' :: "LOSE".toList := by decide
    rw [he]; exact stripLit_ne _ _ hc
  simp [re_close_matches, h, hlit]

theorem re_attr_matches_elim {line : List Char} (h : re_attr_matches line = true) :
    ∃ rs, stripWs line = some ('a' :: rs) := by
  unfold re_attr_matches at h
  cases hw : stripWs line with
  | none => rw [hw] at h; simp at h
  | some r =>
    rw [hw] at h
    have h2 : (stripLit attrLit r).isSome = true := by simpa using h
    obtain ⟨t, hl⟩ := Option.isSome_iff_exists.mp h2
    have he : attrLit = 'a' :: "ttributes: ".toList := by decide
    rw [he] at hl
    obtain ⟨rs, hr⟩ := stripLit_cons_some hl
    exact ⟨rs, by rw [hr]⟩

theorem re_open_matches_elim {line : List Char} (h : re_open_matches line = true) :
    ∃ rs, stripWs line = some ('O' :: rs) := by
  unfold re_open_matches at h
  cases hw : stripWs line with
  | none => rw [hw] at h; simp at h
  | some r =>
    rw [hw] at h
    have h2 : (stripLit openLit r).isSome = true := by simpa using h
    obtain ⟨t, hl⟩ := Option.isSome_iff_exists.mp h2
    have he : openLit = 'O' :: "PEN".toList := by decide
    rw [he] at hl
    obtain ⟨rs, hr⟩ := stripLit_cons_some hl
    exact ⟨rs, by rw [hr]⟩

theorem re_close_matches_elim {line : List Char} (h : re_close_matches line = true) :
    ∃ rs, stripWs line = some ('C' :: rs) := by
  unfold re_close_matches at h
  cases hw : stripWs line with
  | none => rw [hw] at h; simp at h
  | some r =>
    rw [hw] at h
    have h2 : (stripLit closeLit r).isSome = true := by simpa using h
    obtain ⟨t, hl⟩ := Option.isSome_iff_exists.mp h2
    have he : closeLit = 'C' :: "LOSE".toList := by decide
    rw [he] at hl
    obtain ⟨rs, hr⟩ := stripLit_cons_some hl
    exact ⟨rs, by rw [hr]⟩

/-- On an attributes line with a truthy procedure and a set symbol, the loop
body leaves the state alone, never fails, and prints the save part followed by
the type part. -/
theorem processLine_attr (fn : String) (st : ScanState) (line : List Char) (sym : String)
    (hp : pyTruthy st.curr_procedure = true) (hs : st.curr_symbol = some sym)
    (ha : re_attr_matches line = true) :
    processLine fn st line =
      (st,
       (if containsSub saveLit line && !containsSub paramLit line
        then [attrMsg fn sym (st.curr_procedure.getD "") implicitSaveStr] else []) ++
       (if containsSub typeLit line
        then [attrMsg fn sym (st.curr_procedure.getD "") implicitTypeStr] else []),
       false) := by
  obtain ⟨rs, hw⟩ := re_attr_matches_elim ha
  have hpm := re_procedure_match_eq_none hw (by decide)
  have hsm := re_symbol_match_eq_none hw (by decide)
  have hom := re_open_matches_eq_false hw (by decide)
  have hcm := re_close_matches_eq_false hw (by decide)
  by_cases c1 : containsSub saveLit line <;> by_cases c2 : containsSub paramLit line <;>
    by_cases c3 : containsSub typeLit line <;>
    simp [processLine, hpm, hsm, saveEmit, typeEmit, openEmit, closeEmit,
      ha, hp, hs, hom, hcm, c1, c2, c3]

/-- On an attributes line with a truthy procedure, an unset symbol and at
least one firing attribute check, the loop body prints nothing and dies. -/
theorem processLine_attr_nosym (fn : String) (st : ScanState) (line : List Char)
    (hp : pyTruthy st.curr_procedure = true) (hs : st.curr_symbol = none)
    (ha : re_attr_matches line = true)
    (hfire : ((containsSub saveLit line && !containsSub paramLit line) ||
      containsSub typeLit line) = true) :
    processLine fn st line = (st, [], true) := by
  obtain ⟨rs, hw⟩ := re_attr_matches_elim ha
  have hpm := re_procedure_match_eq_none hw (by decide)
  have hsm := re_symbol_match_eq_none hw (by decide)
  by_cases c1 : containsSub saveLit line <;> by_cases c2 : containsSub paramLit line <;>
    by_cases c3 : containsSub typeLit line <;>
    simp [c1, c2, c3] at hfire <;>
    simp [processLine, hpm, hsm, saveEmit, typeEmit, ha, hp, hs, c1, c2, c3]

/-- On a line starting with whitespace and OPEN, under a truthy procedure, the
loop body leaves the state alone, never fails, and prints the OPEN diagnostic
exactly when the base name of the file is not in the exception list. -/
theorem processLine_open (fn : String) (st : ScanState) (line : List Char)
    (hp : pyTruthy st.curr_procedure = true) (ho : re_open_matches line = true) :
    processLine fn st line =
      (st,
       if open_close_exceptions.contains (rsplitBase fn) then []
       else [openCloseMsg fn openStr (st.curr_procedure.getD "")],
       false) := by
  obtain ⟨rs, hw⟩ := re_open_matches_elim ho
  have hpm := re_procedure_match_eq_none hw (by decide)
  have hsm := re_symbol_match_eq_none hw (by decide)
  have ham := re_attr_matches_eq_false hw (by decide)
  have hcm := re_close_matches_eq_false hw (by decide)
  by_cases ce : open_close_exceptions.contains (rsplitBase fn) <;>
    simp [processLine, hpm, hsm, saveEmit, typeEmit, openEmit, closeEmit,
      ho, hp, ham, hcm, ce]

/-- Mirror image of the OPEN case for CLOSE lines. -/
theorem processLine_close (fn : String) (st : ScanState) (line : List Char)
    (hp : pyTruthy st.curr_procedure = true) (hc : re_close_matches line = true) :
    processLine fn st line =
      (st,
       if open_close_exceptions.contains (rsplitBase fn) then []
       else [openCloseMsg fn closeStr (st.curr_procedure.getD "")],
       false) := by
  obtain ⟨rs, hw⟩ := re_close_matches_elim hc
  have hpm := re_procedure_match_eq_none hw (by decide)
  have hsm := re_symbol_match_eq_none hw (by decide)
  have ham := re_attr_matches_eq_false hw (by decide)
  have hom := re_open_matches_eq_false hw (by decide)
  by_cases ce : open_close_exceptions.contains (rsplitBase fn) <;>
    simp [processLine, hpm, hsm, saveEmit, typeEmit, openEmit, closeEmit,
      hc, hp, ham, hom, ce]

/-- While the procedure variable is still None and the line is not a
procedure declaration, the loop body prints nothing, cannot fail, and keeps
the procedure variable at None. -/
theorem processLine_no_proc (fn : String) (st : ScanState) (line : List Char)
    (hp : st.curr_procedure = none) (hm : re_procedure_match line = none) :
    (processLine fn st line).1.curr_procedure = none ∧
    (processLine fn st line).2.1 = [] ∧ (processLine fn st line).2.2 = false := by
  cases hsym : re_symbol_match line with
  | some s => simp [processLine, hm, hsym, hp]
  | none =>
    simp [processLine, hm, hsym, saveEmit, typeEmit, openEmit, closeEmit, hp, pyTruthy]

/-- The scanning loop over an appended line list splits into the two runs,
provided the first run does not fail. -/
theorem runLines_append (fn : String) (xs ys : List (List Char)) :
    ∀ st : ScanState, (runLines fn st xs).2.2 = false →
    runLines fn st (xs ++ ys) =
      ((runLines fn (runLines fn st xs).1 ys).1,
       (runLines fn st xs).2.1 ++ (runLines fn (runLines fn st xs).1 ys).2.1,
       (runLines fn (runLines fn st xs).1 ys).2.2) := by
  induction xs with
  | nil => intro st h; simp [runLines]
  | cons l ls ih =>
    intro st h
    cases hc : (processLine fn st l).2.2 with
    | true =>
      exfalso
      have hl : runLines fn st (l :: ls) = processLine fn st l := by
        simp [runLines, hc]
      rw [hl] at h
      rw [h] at hc
      exact Bool.false_ne_true hc
    | false =>
      have hl : runLines fn st (l :: ls) =
          ((runLines fn (processLine fn st l).1 ls).1,
           (processLine fn st l).2.1 ++ (runLines fn (processLine fn st l).1 ls).2.1,
           (runLines fn (processLine fn st l).1 ls).2.2) := by
        simp [runLines, hc]
      have h2 : (runLines fn (processLine fn st l).1 ls).2.2 = false := by
        rw [hl] at h
        exact h
      have hl2 : runLines fn st (l :: ls ++ ys) =
          ((runLines fn (processLine fn st l).1 (ls ++ ys)).1,
           (processLine fn st l).2.1 ++ (runLines fn (processLine fn st l).1 (ls ++ ys)).2.1,
           (runLines fn (processLine fn st l).1 (ls ++ ys)).2.2) := by
        simp [runLines, hc]
      rw [hl2, ih (processLine fn st l).1 h2, hl]
      simp [List.append_assoc]

/-- While no procedure declaration has been seen, a scan from a state with an
unset procedure prints nothing, cannot fail, and keeps the procedure unset. -/
theorem runLines_no_proc (fn : String) (lines : List (List Char)) :
    ∀ st : ScanState, st.curr_procedure = none →
    (∀ l ∈ lines, re_procedure_match l = none) →
    (runLines fn st lines).1.curr_procedure = none ∧
    (runLines fn st lines).2.1 = [] ∧ (runLines fn st lines).2.2 = false := by
  induction lines with
  | nil =>
    intro st hp h
    simp [runLines, hp]
  | cons l ls ih =>
    intro st hp h
    have hm := h l (by simp)
    obtain ⟨h1, h2, h3⟩ := processLine_no_proc fn st l hp hm
    have hrest := ih (processLine fn st l).1 h1 (fun x hx => h x (by simp [hx]))
    have hl : runLines fn st (l :: ls) =
        ((runLines fn (processLine fn st l).1 ls).1,
         (processLine fn st l).2.1 ++ (runLines fn (processLine fn st l).1 ls).2.1,
         (runLines fn (processLine fn st l).1 ls).2.2) := by
      simp [runLines, h3]
    rw [hl, h2]
    exact ⟨hrest.1, by simp [hrest.2.1], hrest.2.2⟩

theorem string_eq_of_data {a b : String} (h : a.data = b.data) : a = b :=
  congrArg String.mk h

theorem string_append_assoc (a b c : String) : (a ++ b) ++ c = a ++ (b ++ c) := by
  apply string_eq_of_data
  simp [string_data_append]

/-- The symmetric form of the distinctness of the two attribute diagnostics. -/
theorem attrMsg_type_ne_save (fn sym proc : String) :
    attrMsg fn sym proc implicitTypeStr ≠ attrMsg fn sym proc implicitSaveStr :=
  fun h => attrMsg_save_ne_type fn sym proc h.symm

/-- The OPEN diagnostic builder written out as one flat concatenation. -/
theorem openCloseMsg_open_eq (fn p : String) :
    openCloseMsg fn openStr p = fn ++ ": direct call to OPEN in procedure \"" ++ p ++ "\x27" := by
  have key : ((fn ++ ": direct call to ") ++ openStr) ++ " in procedure \"" =
      fn ++ ": direct call to OPEN in procedure \"" := by
    rw [string_append_assoc, string_append_assoc]
    have hlit : ": direct call to " ++ (openStr ++ " in procedure \"") =
        ": direct call to OPEN in procedure \"" := by decide
    rw [hlit]
  rw [openCloseMsg, key]

/-- The CLOSE diagnostic builder written out as one flat concatenation. -/
theorem openCloseMsg_close_eq (fn p : String) :
    openCloseMsg fn closeStr p = fn ++ ": direct call to CLOSE in procedure \"" ++ p ++ "\x27" := by
  have key : ((fn ++ ": direct call to ") ++ closeStr) ++ " in procedure \"" =
      fn ++ ": direct call to CLOSE in procedure \"" := by
    rw [string_append_assoc, string_append_assoc]
    have hlit : ": direct call to " ++ (closeStr ++ " in procedure \"") =
        ": direct call to CLOSE in procedure \"" := by decide
    rw [hlit]
  rw [openCloseMsg, key]

/-- C1: counterexample to the claim as stated.  In a file named foo.log the
first line matches the procedure pattern and sets current_procedure to the
captured empty string, so current_procedure is set; the second line matches
the OPEN pattern and the base name foo is not in the exception set; the claim
demands an OPEN diagnostic, yet the scan emits nothing, because the empty
string is falsy in the source conditions. -/
theorem C1_counterexample :
    re_procedure_match "  procedure name = ".toList = some "" ∧
    (runLines "foo.log" { curr_procedure := none, curr_symbol := none }
        ["  procedure name = ".toList]).1 =
      { curr_procedure := some "", curr_symbol := none } ∧
    re_open_matches "  OPEN".toList = true ∧
    open_close_exceptions.contains (rsplitBase "foo.log") = false ∧
    process_log_file "foo.log" "  procedure name = \n  OPEN" = ([], false) := by
  decide

/-- C1 (amended): for every input line matching the OPEN pattern while
current_procedure holds a truthy, that is non-empty, procedure name, the
scanner emits the OPEN diagnostic for that line if and only if the base name
of the file, the path minus its final extension, is not in the exception set
of cp_files, machine_gfortran and machine.  Amended from the original claim
only in that a procedure name captured as the empty string counts as set but
is falsy in the source, so nothing is emitted then. -/
theorem C1_open_iff_not_exception (fn : String) (st : ScanState) (line : List Char)
    (hp : pyTruthy st.curr_procedure = true) (ho : re_open_matches line = true) :
    (openCloseMsg fn openStr (st.curr_procedure.getD "") ∈ (processLine fn st line).2.1) ↔
      open_close_exceptions.contains (rsplitBase fn) = false := by
  rw [processLine_open fn st line hp ho]
  by_cases ce : open_close_exceptions.contains (rsplitBase fn) <;> simp [ce]

/-- Witness for the amended C1: a concrete OPEN line inside a procedure in a
file with base name foo, where both sides of the equivalence hold. -/
theorem C1_open_iff_not_exception_witness :
    pyTruthy ({ curr_procedure := some "p", curr_symbol := none } : ScanState).curr_procedure = true ∧
    re_open_matches "  OPEN(unit=10)".toList = true ∧
    ((openCloseMsg "foo.log" openStr
        (({ curr_procedure := some "p", curr_symbol := none } : ScanState).curr_procedure.getD "") ∈
      (processLine "foo.log" { curr_procedure := some "p", curr_symbol := none }
        "  OPEN(unit=10)".toList).2.1) ↔
      open_close_exceptions.contains (rsplitBase "foo.log") = false) :=
  ⟨by decide, by decide,
   C1_open_iff_not_exception "foo.log" { curr_procedure := some "p", curr_symbol := none }
     "  OPEN(unit=10)".toList (by decide) (by decide)⟩

/-- C2: if an attributes line carrying IMPLICIT-SAVE without PARAMETER, or
carrying IMPLICIT-TYPE, is reached while the procedure variable is truthy but
no symtree symbol line has been seen yet, the diagnostic construction is not
total: the scan fails on that line and emits nothing there, so the error
branch of the embedded emit operation is reachable. -/
theorem C2_attr_unset_symbol_fails (fn : String) (st : ScanState) (line : List Char)
    (hp : pyTruthy st.curr_procedure = true) (hs : st.curr_symbol = none)
    (ha : re_attr_matches line = true)
    (hfire : ((containsSub saveLit line && !containsSub paramLit line) ||
      containsSub typeLit line) = true) :
    (processLine fn st line).2.2 = true ∧ (processLine fn st line).2.1 = [] := by
  rw [processLine_attr_nosym fn st line hp hs ha hfire]
  exact ⟨rfl, rfl⟩

/-- Witness for C2 at a concrete state and line, together with the fact that
the failing situation is reached from a concrete input file, on which the
whole scan dies after emitting nothing. -/
theorem C2_attr_unset_symbol_fails_witness :
    (processLine "f.log" { curr_procedure := some "p", curr_symbol := none }
        "  attributes: IMPLICIT-TYPE y".toList).2.2 = true ∧
    (processLine "f.log" { curr_procedure := some "p", curr_symbol := none }
        "  attributes: IMPLICIT-TYPE y".toList).2.1 = [] ∧
    process_log_file "f.log" "  procedure name = p\n  attributes: IMPLICIT-TYPE y" =
      ([], true) :=
  ⟨(C2_attr_unset_symbol_fails "f.log" { curr_procedure := some "p", curr_symbol := none }
      "  attributes: IMPLICIT-TYPE y".toList (by decide) (by decide) (by decide) (by decide)).1,
   (C2_attr_unset_symbol_fails "f.log" { curr_procedure := some "p", curr_symbol := none }
      "  attributes: IMPLICIT-TYPE y".toList (by decide) (by decide) (by decide) (by decide)).2,
   by decide⟩

/-- C3: counterexample to the claim as stated.  With current_procedure set and
no symtree line seen yet, an attributes line containing both IMPLICIT-SAVE and
IMPLICIT-TYPE and no PARAMETER does not emit two diagnostics: the loop body
emits nothing and dies, and the whole-file run on a concrete file reaching
that situation emits nothing and fails. -/
theorem C3_counterexample :
    re_attr_matches "  attributes: IMPLICIT-SAVE IMPLICIT-TYPE".toList = true ∧
    containsSub saveLit "  attributes: IMPLICIT-SAVE IMPLICIT-TYPE".toList = true ∧
    containsSub typeLit "  attributes: IMPLICIT-SAVE IMPLICIT-TYPE".toList = true ∧
    containsSub paramLit "  attributes: IMPLICIT-SAVE IMPLICIT-TYPE".toList = false ∧
    (processLine "f.log" { curr_procedure := some "p", curr_symbol := none }
        "  attributes: IMPLICIT-SAVE IMPLICIT-TYPE".toList).2.1 = [] ∧
    (processLine "f.log" { curr_procedure := some "p", curr_symbol := none }
        "  attributes: IMPLICIT-SAVE IMPLICIT-TYPE".toList).2.2 = true ∧
    process_log_file "f.log"
        "  procedure name = p\n  attributes: IMPLICIT-SAVE IMPLICIT-TYPE" = ([], true) := by
  decide

/-- C3 (amended): on every attributes line seen while current_procedure holds
a truthy name and current_symbol is set, a PARAMETER substring suppresses the
IMPLICIT-SAVE diagnostic; the IMPLICIT-TYPE diagnostic is emitted exactly when
the line contains IMPLICIT-TYPE, independently of PARAMETER; and a line
containing both attribute substrings and no PARAMETER emits exactly the two
diagnostics, save before type.  Amended from the original claim in that
current_symbol must already be set, otherwise the scan dies, and the captured
procedure name must be non-empty to be truthy. -/
theorem C3_attr_save_type_independent (fn : String) (st : ScanState) (line : List Char)
    (sym : String) (hp : pyTruthy st.curr_procedure = true) (hs : st.curr_symbol = some sym)
    (ha : re_attr_matches line = true) :
    (containsSub paramLit line = true →
      attrMsg fn sym (st.curr_procedure.getD "") implicitSaveStr ∉ (processLine fn st line).2.1) ∧
    ((attrMsg fn sym (st.curr_procedure.getD "") implicitTypeStr ∈ (processLine fn st line).2.1) ↔
      containsSub typeLit line = true) ∧
    (containsSub saveLit line = true → containsSub typeLit line = true →
      containsSub paramLit line = false →
      (processLine fn st line).2.1 =
        [attrMsg fn sym (st.curr_procedure.getD "") implicitSaveStr,
         attrMsg fn sym (st.curr_procedure.getD "") implicitTypeStr]) := by
  rw [processLine_attr fn st line sym hp hs ha]
  refine ⟨?_, ?_, ?_⟩
  · intro hpar
    by_cases c1 : containsSub saveLit line <;> by_cases c3 : containsSub typeLit line <;>
      simp [c1, c3, hpar, attrMsg_save_ne_type fn sym (st.curr_procedure.getD "")]
  · by_cases c1 : containsSub saveLit line <;> by_cases c2 : containsSub paramLit line <;>
      by_cases c3 : containsSub typeLit line <;>
      simp [c1, c2, c3, attrMsg_type_ne_save fn sym (st.curr_procedure.getD "")]
  · intro h1 h2 h3
    simp [h1, h2, h3]

/-- Witness for the amended C3 at a concrete state and attributes line
carrying both attributes and no PARAMETER. -/
theorem C3_attr_save_type_independent_witness :
    pyTruthy ({ curr_procedure := some "p", curr_symbol := some "s" } : ScanState).curr_procedure = true ∧
    re_attr_matches "  attributes: IMPLICIT-SAVE IMPLICIT-TYPE".toList = true ∧
    (processLine "f.log" { curr_procedure := some "p", curr_symbol := some "s" }
        "  attributes: IMPLICIT-SAVE IMPLICIT-TYPE".toList).2.1 =
      [attrMsg "f.log" "s"
        (({ curr_procedure := some "p", curr_symbol := some "s" } : ScanState).curr_procedure.getD "")
        implicitSaveStr,
       attrMsg "f.log" "s"
        (({ curr_procedure := some "p", curr_symbol := some "s" } : ScanState).curr_procedure.getD "")
        implicitTypeStr] :=
  ⟨by decide, by decide,
   (C3_attr_save_type_independent "f.log"
      { curr_procedure := some "p", curr_symbol := some "s" }
      "  attributes: IMPLICIT-SAVE IMPLICIT-TYPE".toList "s"
      (by decide) (by decide) (by decide)).2.2 (by decide) (by decide) (by decide)⟩

/-- C4: every emitted OPEN diagnostic, and symmetrically every emitted CLOSE
diagnostic, is exactly the file name, the fixed text, a double quote, the
procedure name and a single closing apostrophe with no closing double quote,
preserved literally. -/
theorem C4_open_close_message_format (fn p : String) (st : ScanState)
    (lo lc : List Char) (hp : st.curr_procedure = some p) (hne : ¬p = "")
    (ho : re_open_matches lo = true) (hc : re_close_matches lc = true)
    (he : open_close_exceptions.contains (rsplitBase fn) = false) :
    (processLine fn st lo).2.1 =
      [fn ++ ": direct call to OPEN in procedure \"" ++ p ++ "\x27"] ∧
    (processLine fn st lc).2.1 =
      [fn ++ ": direct call to CLOSE in procedure \"" ++ p ++ "\x27"] := by
  have hpt : pyTruthy st.curr_procedure = true := by
    simp [pyTruthy, hp, hne]
  have he2 : rsplitBase fn ∉ open_close_exceptions := by simpa using he
  constructor
  · rw [processLine_open fn st lo hpt ho, hp]
    simp [he2, openCloseMsg_open_eq]
  · rw [processLine_close fn st lc hpt hc, hp]
    simp [he2, openCloseMsg_close_eq]

/-- Witness for C4 at concrete OPEN and CLOSE lines in a file with base name
foo inside procedure p. -/
theorem C4_open_close_message_format_witness :
    ({ curr_procedure := some "p", curr_symbol := none } : ScanState).curr_procedure = some "p" ∧
    re_open_matches "  OPEN(unit=10)".toList = true ∧
    re_close_matches "  CLOSE(unit=10)".toList = true ∧
    open_close_exceptions.contains (rsplitBase "foo.log") = false ∧
    (processLine "foo.log" { curr_procedure := some "p", curr_symbol := none }
        "  OPEN(unit=10)".toList).2.1 =
      ["foo.log" ++ ": direct call to OPEN in procedure \"" ++ "p" ++ "\x27"] ∧
    (processLine "foo.log" { curr_procedure := some "p", curr_symbol := none }
        "  CLOSE(unit=10)".toList).2.1 =
      ["foo.log" ++ ": direct call to CLOSE in procedure \"" ++ "p" ++ "\x27"] :=
  ⟨by decide, by decide, by decide, by decide,
   (C4_open_close_message_format "foo.log" "p"
      { curr_procedure := some "p", curr_symbol := none }
      "  OPEN(unit=10)".toList "  CLOSE(unit=10)".toList
      rfl (by decide) (by decide) (by decide) (by decide)).1,
   (C4_open_close_message_format "foo.log" "p"
      { curr_procedure := some "p", curr_symbol := none }
      "  OPEN(unit=10)".toList "  CLOSE(unit=10)".toList
      rfl (by decide) (by decide) (by decide) (by decide)).2⟩

/-- C5: for every input file, no diagnostic of any kind is emitted for lines
preceding the first line matching the procedure pattern: the scan of such a
prefix prints nothing and cannot fail, and the output of the whole file equals
the output of the remaining lines scanned from the state reached after the
prefix, every emitting branch being blocked while current_procedure is unset. -/
theorem C5_no_output_before_first_procedure (fn : String)
    (pre post : List (List Char)) (h : ∀ l ∈ pre, re_procedure_match l = none) :
    (runLines fn { curr_procedure := none, curr_symbol := none } pre).2.1 = [] ∧
    (runLines fn { curr_procedure := none, curr_symbol := none } pre).2.2 = false ∧
    (runLines fn { curr_procedure := none, curr_symbol := none } (pre ++ post)).2.1 =
      (runLines fn
        (runLines fn { curr_procedure := none, curr_symbol := none } pre).1 post).2.1 := by
  have h0 := runLines_no_proc fn pre { curr_procedure := none, curr_symbol := none } rfl h
  refine ⟨h0.2.1, h0.2.2, ?_⟩
  rw [runLines_append fn pre post _ h0.2.2]
  simp [h0.2.1]

/-- Witness for C5: a prefix holding an OPEN line, a CLOSE line, an attributes
line and a symtree line, none of which emits anything before the procedure
line that follows them. -/
theorem C5_no_output_before_first_procedure_witness :
    (∀ l ∈ ["  OPEN(unit=10)".toList, "  CLOSE(unit=10)".toList,
        "  attributes: IMPLICIT-SAVE IMPLICIT-TYPE".toList,
        "  symtree: x symbol: \x27v\x27".toList], re_procedure_match l = none) ∧
    (runLines "foo.log" { curr_procedure := none, curr_symbol := none }
        ["  OPEN(unit=10)".toList, "  CLOSE(unit=10)".toList,
         "  attributes: IMPLICIT-SAVE IMPLICIT-TYPE".toList,
         "  symtree: x symbol: \x27v\x27".toList]).2.1 = [] ∧
    (runLines "foo.log" { curr_procedure := none, curr_symbol := none }
        ["  OPEN(unit=10)".toList, "  CLOSE(unit=10)".toList,
         "  attributes: IMPLICIT-SAVE IMPLICIT-TYPE".toList,
         "  symtree: x symbol: \x27v\x27".toList]).2.2 = false :=
  ⟨by decide,
   (C5_no_output_before_first_procedure "foo.log"
      ["  OPEN(unit=10)".toList, "  CLOSE(unit=10)".toList,
       "  attributes: IMPLICIT-SAVE IMPLICIT-TYPE".toList,
       "  symtree: x symbol: \x27v\x27".toList]
      ["  procedure name = p".toList] (by decide)).1,
   (C5_no_output_before_first_procedure "foo.log"
      ["  OPEN(unit=10)".toList, "  CLOSE(unit=10)".toList,
       "  attributes: IMPLICIT-SAVE IMPLICIT-TYPE".toList,
       "  symtree: x symbol: \x27v\x27".toList]
      ["  procedure name = p".toList] (by decide)).2.1⟩

/-- C6: counterexample to the claim as stated.  A run on one perfectly
readable file whose content drives the scanner into the unset-symbol failure
terminates with exit code one, not zero. -/
theorem C6_counterexample :
    ([("g.log", "  procedure name = q\n  attributes: IMPLICIT-TYPE w")] :
      List (String × String)) ≠ [] ∧
    (mainModel [("g.log", "  procedure name = q\n  attributes: IMPLICIT-TYPE w")]).2 = 1 := by
  decide

/-- C6 (amended): with no file arguments the program prints exactly the four
usage lines to standard output and exits with code one; with at least one file
argument, every file readable and no file driving the scan into the
unset-symbol failure, it processes all files and exits with code zero.
Amended from the original claim only by the no-failure proviso, since a
readable file can still make the scan raise, and then the exit code is one. -/
theorem C6_usage_and_exit :
    (mainModel []).1 = usageLines ∧ usageLines.length = 4 ∧ (mainModel []).2 = 1 ∧
    ∀ files : List (String × String), files ≠ [] → (runFiles files).2 = false →
      (mainModel files).1 = (runFiles files).1 ∧ (mainModel files).2 = 0 := by
  refine ⟨rfl, rfl, rfl, ?_⟩
  intro files hne hok
  have hie : files.isEmpty = false := by
    cases files with
    | nil => exact absurd rfl hne
    | cons a l => rfl
  exact ⟨by simp [mainModel, hie], by simp [mainModel, hie, hok]⟩

/-- Witness for the amended C6: one readable file whose scan completes, so the
run prints its diagnostics and exits with code zero. -/
theorem C6_usage_and_exit_witness :
    (([("a.log", "hello world")] : List (String × String)) ≠ []) ∧
    (runFiles [("a.log", "hello world")]).2 = false ∧
    (mainModel [("a.log", "hello world")]).1 = (runFiles [("a.log", "hello world")]).1 ∧
    (mainModel [("a.log", "hello world")]).2 = 0 :=
  ⟨by decide, by decide,
   (C6_usage_and_exit.2.2.2 [("a.log", "hello world")] (by decide) (by decide)).1,
   (C6_usage_and_exit.2.2.2 [("a.log", "hello world")] (by decide) (by decide)).2⟩

/-- C7: in a file with a procedure line naming foo, a later symtree line
capturing bar and then an attributes line with IMPLICIT-SAVE and another
attribute, the scanner emits exactly the single stated IMPLICIT-SAVE
diagnostic and completes. -/
theorem C7_save_scenario :
    process_log_file "f.log"
        "  procedure name = foo\n  symtree: x symbol: \x27bar\x27 (ref)\n  attributes: IMPLICIT-SAVE, SOME-OTHER" =
      (["f.log: Symbol \"bar\" in procedure \"foo\" is IMPLICIT-SAVE"], false) := by
  decide

/-- C8: counterexample to the claim as stated.  File b.log alone emits its
OPEN diagnostic, but when the readable file a.log, whose scan dies in the
unset-symbol failure, stands before it on the command line, the run stops and
the diagnostics of b.log disappear, so they are not identical. -/
theorem C8_counterexample :
    (process_log_file "b.log" "  procedure name = q\n  OPEN").1 =
      ["b.log: direct call to OPEN in procedure \"q\x27"] ∧
    (runFiles [("a.log", "  procedure name = p\n  attributes: IMPLICIT-SAVE v"),
               ("b.log", "  procedure name = q\n  OPEN")]).1 = [] := by
  decide

/-- C8 (amended): every file is scanned from the freshly initialised state
with both variables unset, and provided the scan of a preceding file completes
without the unset-symbol failure, the diagnostics of the following files are
exactly those of the run without that file in front.  Amended from the
original claim because a preceding file whose scan dies stops the whole run,
and the later files then emit nothing. -/
theorem C8_files_independent (a : String × String) (rest : List (String × String))
    (h : (process_log_file a.1 a.2).2 = false) :
    (runFiles (a :: rest)).1 = (process_log_file a.1 a.2).1 ++ (runFiles rest).1 ∧
    (runFiles (a :: rest)).2 = (runFiles rest).2 ∧
    process_log_file a.1 a.2 =
      ((runLines a.1 { curr_procedure := none, curr_symbol := none } (splitLines a.2)).2.1,
       (runLines a.1 { curr_procedure := none, curr_symbol := none } (splitLines a.2)).2.2) := by
  refine ⟨?_, ?_, rfl⟩ <;> simp [runFiles, h]

/-- Witness for the amended C8: a harmless first file followed by a file that
emits one OPEN diagnostic; the combined output splits as stated. -/
theorem C8_files_independent_witness :
    (process_log_file "a.log" "plain text").2 = false ∧
    (runFiles [("a.log", "plain text"), ("b.log", "  procedure name = q\n  OPEN")]).1 =
      (process_log_file "a.log" "plain text").1 ++
        (runFiles [("b.log", "  procedure name = q\n  OPEN")]).1 :=
  ⟨by decide,
   (C8_files_independent ("a.log", "plain text")
      [("b.log", "  procedure name = q\n  OPEN")] (by decide)).1⟩

/-- C9: a line matching the procedure pattern updates only current_procedure,
keeps current_symbol and prints nothing, and any line not matching the symtree
pattern leaves current_symbol untouched, so the most recently captured symbol
persists across procedure boundaries until the next symtree line overwrites
it. -/
theorem C9_procedure_line_frame (fn : String) (st : ScanState) (line : List Char) :
    (∀ cap, re_procedure_match line = some cap →
      processLine fn st line =
        ({ curr_procedure := some cap, curr_symbol := st.curr_symbol }, [], false)) ∧
    (re_symbol_match line = none →
      (processLine fn st line).1.curr_symbol = st.curr_symbol) := by
  constructor
  · intro cap hc
    simp [processLine, hc]
  · intro hs
    cases hc : re_procedure_match line with
    | some p => simp [processLine, hc]
    | none =>
      cases h1 : saveEmit fn st line <;> cases h2 : typeEmit fn st line <;>
        simp [processLine, hc, hs, h1, h2]

/-- Witness for C9: a procedure line seen with a captured symbol in the state
keeps that symbol, and a following OPEN line does not touch it either. -/
theorem C9_procedure_line_frame_witness :
    re_procedure_match "  procedure name = foo".toList = some "foo" ∧
    processLine "f.log" { curr_procedure := none, curr_symbol := some "bar" }
        "  procedure name = foo".toList =
      ({ curr_procedure := some "foo", curr_symbol := some "bar" }, [], false) ∧
    (processLine "f.log" { curr_procedure := some "foo", curr_symbol := some "bar" }
        "  OPEN(unit=10)".toList).1.curr_symbol = some "bar" :=
  ⟨by decide,
   (C9_procedure_line_frame "f.log" { curr_procedure := none, curr_symbol := some "bar" }
      "  procedure name = foo".toList).1 "foo" (by decide),
   (C9_procedure_line_frame "f.log" { curr_procedure := some "foo", curr_symbol := some "bar" }
      "  OPEN(unit=10)".toList).2 (by decide)⟩

/-- C10: the per-file scan is a pure function of the file name and the line
sequence of the content: two contents splitting into the same lines give
byte-for-byte identical results, and in particular two runs on the same file
agree, there being no other input to the scan. -/
theorem C10_deterministic (fn c1 c2 : String) (h : splitLines c1 = splitLines c2) :
    process_log_file fn c1 = process_log_file fn c2 := by
  unfold process_log_file
  rw [h]

/-- Witness for C10 at a concrete file name and content. -/
theorem C10_deterministic_witness :
    splitLines "  procedure name = p\n  OPEN" = splitLines "  procedure name = p\n  OPEN" ∧
    process_log_file "f.log" "  procedure name = p\n  OPEN" =
      process_log_file "f.log" "  procedure name = p\n  OPEN" :=
  ⟨rfl, C10_deterministic "f.log" "  procedure name = p\n  OPEN"
    "  procedure name = p\n  OPEN" rfl⟩
